import Mathlib

/-!
Verification development for a repository of standalone LLM-demo scripts
(basic chat loops, a customer-service state machine, a travel assistant,
a restaurant-rating ReAct agent implemented twice, search-API comparisons,
and a synchronous/asynchronous file-persistence demo).

Each namespace shallowly embeds the deterministic, local part of one
script; calls to hosted model APIs are modelled as oracles (explicit
arguments supplying the reply the model would have produced).
-/

/-- Model of a Python number as it appears in the rating tables: the
tables hold float literals (4.5, 4.2, 4.8) while review counts and the
default entry hold int literals. Every float literal in the code is an
exact one-decimal value, represented here by its value times ten
(`.float 45` models the Python float `4.5`). -/
inductive PyNum where
  | int : Int → PyNum
  | float10 : Int → PyNum
  deriving DecidableEq, Repr

/-- Model of the dict value returned by the rating lookup functions:
a Python dict with the two keys "rating" and "reviews". -/
structure RatingEntry where
  rating : PyNum
  reviews : PyNum
  deriving DecidableEq, Repr

namespace ReactTwo

/-- Embeds the literal dict `ratings` in `get_restaurant_rating`
(src/react_2.py lines 30-34). -/
def ratings : List (String × RatingEntry) :=
  [("Pizza Palace", ⟨.float10 45, .int 230⟩),
   ("Burger Barn", ⟨.float10 42, .int 185⟩),
   ("Sushi Supreme", ⟨.float10 48, .int 320⟩)]

/-- Embeds `get_restaurant_rating` (src/react_2.py lines 29-35):
`ratings.get(name, {"rating": 0, "reviews": 0})`. -/
def get_restaurant_rating (name : String) : RatingEntry :=
  (ratings.lookup name).getD ⟨.int 0, .int 0⟩

end ReactTwo

namespace LangGraphTwo

/-- Embeds the literal dict `ratings` in `RestaurantTool.get_restaurant_rating`
(src/langgraph_2.py lines 47-51). -/
def ratings : List (String × RatingEntry) :=
  [("Pizza Palace", ⟨.float10 45, .int 230⟩),
   ("Burger Barn", ⟨.float10 42, .int 185⟩),
   ("Sushi Supreme", ⟨.float10 48, .int 320⟩)]

/-- Embeds `RestaurantTool.get_restaurant_rating` (src/langgraph_2.py
lines 46-52): `ratings.get(name, {"rating": 0, "reviews": 0})`. -/
def get_restaurant_rating (name : String) : RatingEntry :=
  (ratings.lookup name).getD ⟨.int 0, .int 0⟩

/-- Rendering of the Python numbers appearing in this program by `str`,
as interpolated by the f-string in `RestaurantTool.__call__`. An int
renders as its decimal digits; the only floats in the program are
nonnegative exact one-decimal values (4.5, 4.2, 4.8), which CPython
renders as "d.d" — modelled by splitting off the single decimal digit
of the tenths representation. -/
def pyStr : PyNum → String
  | .int n => toString n
  | .float10 t => toString (t / 10) ++ "." ++ toString (t % 10)

/-- Embeds `RestaurantTool.__call__` (src/langgraph_2.py lines 54-56):
`f"Rating: {result['rating']}/5.0 from {result['reviews']} reviews"`. -/
def callTool (name : String) : String :=
  let result := get_restaurant_rating name
  "Rating: " ++ pyStr result.rating ++ "/5.0 from " ++ pyStr result.reviews ++ " reviews"

end LangGraphTwo

/-- C1: the restaurant-rating lookup is implemented twice and the two
implementations agree on every name: both return the common table entry
for the three known restaurants and the default dict
`{"rating": 0, "reviews": 0}` for every other name. -/
theorem C1_rating_lookups_equivalent :
    (∀ name, ReactTwo.get_restaurant_rating name = LangGraphTwo.get_restaurant_rating name) ∧
    ReactTwo.get_restaurant_rating "Pizza Palace" = ⟨.float10 45, .int 230⟩ ∧
    ReactTwo.get_restaurant_rating "Burger Barn" = ⟨.float10 42, .int 185⟩ ∧
    ReactTwo.get_restaurant_rating "Sushi Supreme" = ⟨.float10 48, .int 320⟩ ∧
    (∀ name, name ≠ "Pizza Palace" → name ≠ "Burger Barn" → name ≠ "Sushi Supreme" →
      ReactTwo.get_restaurant_rating name = ⟨.int 0, .int 0⟩) := by
  refine ⟨fun name => rfl, by decide, by decide, by decide, ?_⟩
  intro name h1 h2 h3
  have e1 : (name == "Pizza Palace") = false := beq_eq_false_iff_ne.mpr h1
  have e2 : (name == "Burger Barn") = false := beq_eq_false_iff_ne.mpr h2
  have e3 : (name == "Sushi Supreme") = false := beq_eq_false_iff_ne.mpr h3
  simp [ReactTwo.get_restaurant_rating, ReactTwo.ratings, List.lookup, e1, e2, e3]

/-- Witness for C1 at the concrete unknown name "Taco Town". -/
theorem C1_witness :
    ReactTwo.get_restaurant_rating "Taco Town" = ⟨.int 0, .int 0⟩ :=
  C1_rating_lookups_equivalent.2.2.2.2 "Taco Town" (by decide) (by decide) (by decide)

/-- C6: the tool formatting is deterministic: `RestaurantTool.__call__`
returns exactly "Rating: {rating}/5.0 from {reviews} reviews" with the
table entry for the three known restaurants and 0 and 0 otherwise. -/
theorem C6_call_formats_expected_string :
    LangGraphTwo.callTool "Pizza Palace" = "Rating: 4.5/5.0 from 230 reviews" ∧
    LangGraphTwo.callTool "Burger Barn" = "Rating: 4.2/5.0 from 185 reviews" ∧
    LangGraphTwo.callTool "Sushi Supreme" = "Rating: 4.8/5.0 from 320 reviews" ∧
    (∀ name, name ≠ "Pizza Palace" → name ≠ "Burger Barn" → name ≠ "Sushi Supreme" →
      LangGraphTwo.callTool name = "Rating: 0/5.0 from 0 reviews") := by
  refine ⟨by decide, by decide, by decide, ?_⟩
  intro name h1 h2 h3
  have e1 : (name == "Pizza Palace") = false := beq_eq_false_iff_ne.mpr h1
  have e2 : (name == "Burger Barn") = false := beq_eq_false_iff_ne.mpr h2
  have e3 : (name == "Sushi Supreme") = false := beq_eq_false_iff_ne.mpr h3
  simp [LangGraphTwo.callTool, LangGraphTwo.get_restaurant_rating, LangGraphTwo.ratings,
    List.lookup, e1, e2, e3, LangGraphTwo.pyStr]
  decide

/-- Witness for C6 at the concrete unknown name "Noodle Nook". -/
theorem C6_witness :
    LangGraphTwo.callTool "Noodle Nook" = "Rating: 0/5.0 from 0 reviews" :=
  C6_call_formats_expected_string.2.2.2 "Noodle Nook" (by decide) (by decide) (by decide)

namespace Streaming

/-- Embeds `PersistentStorage.save` (src/streaming_persistenc.py lines
18-21): the file is opened in append mode and `f"{data}\n"` is written,
so the new content is the old content with `data` and one newline
appended. The file content is modelled as the string of bytes in the
file. -/
def save (content : String) (data : String) : String :=
  content ++ (data ++ "\n")

/-- Embeds `PersistentStorage.async_save` (src/streaming_persistenc.py
lines 23-26): identical effect on the file content, via `aiofiles`. -/
def async_save (content : String) (data : String) : String :=
  content ++ (data ++ "\n")

/-- Embeds `DataStreamHandler.generate_data_stream`
(src/streaming_persistenc.py lines 31-34): yields `f"Message {i}"` for
`i in range(10)`, in order. -/
def generate_data_stream : List String :=
  (List.range 10).map (fun i => "Message " ++ toString i)

/-- Embeds the loop of `StorageManager.synchronous_stream_and_persist`
(src/streaming_persistenc.py lines 50-64): every generated message is
saved to the sync file in generation order. -/
def synchronous_stream_and_persist (content : String) : String :=
  generate_data_stream.foldl save content

end Streaming

/-- C4: the synchronous loop generates exactly the ten strings
"Message 0" .. "Message 9" and appends them to the sync file in
generation order: for every prior file content the new content is the
prior content followed by exactly those ten lines in that order. -/
theorem C4_sync_stream_appends_ten_messages_in_order :
    Streaming.generate_data_stream =
      ["Message 0", "Message 1", "Message 2", "Message 3", "Message 4",
       "Message 5", "Message 6", "Message 7", "Message 8", "Message 9"] ∧
    (∀ prior : String,
      Streaming.synchronous_stream_and_persist prior =
        prior ++ "Message 0\nMessage 1\nMessage 2\nMessage 3\nMessage 4\nMessage 5\nMessage 6\nMessage 7\nMessage 8\nMessage 9\n") := by
  have hgen : Streaming.generate_data_stream =
      ["Message 0", "Message 1", "Message 2", "Message 3", "Message 4",
       "Message 5", "Message 6", "Message 7", "Message 8", "Message 9"] := by decide
  refine ⟨hgen, ?_⟩
  intro prior
  rw [Streaming.synchronous_stream_and_persist, hgen]
  simp [Streaming.save, String.append_assoc]

/-- C5: `save` and `async_save` are append-only and one-message-per-line:
for every prior content and data string the new file content is exactly
the prior content, then the data, then one newline — so the prior
content is preserved as a prefix and exactly one newline is added beyond
those already in the data. -/
theorem C5_save_appends_data_and_one_newline :
    ∀ prior data : String,
      Streaming.save prior data = prior ++ data ++ "\n" ∧
      Streaming.async_save prior data = prior ++ data ++ "\n" ∧
      (Streaming.save prior data).data.count '\n' =
        prior.data.count '\n' + data.data.count '\n' + 1 ∧
      (Streaming.save prior data).data.take prior.data.length = prior.data := by
  intro prior data
  refine ⟨(String.append_assoc prior data "\n").symm, (String.append_assoc prior data "\n").symm, ?_, ?_⟩
  · simp [Streaming.save]
    omega
  · simp [Streaming.save, List.take_left]

namespace HotelBooking

/-- Embeds the `Intent` enum (src/hotel_booking.py lines 32-43). -/
inductive Intent where
  | flight_booking
  | hotel_booking
  | general_inquiry
  | itinerary_planning
  | destination_info
  | budget_planning
  | unknown
  deriving DecidableEq, Repr

/-- Embeds the `required_info` dict in `TravelAssistant._get_missing_info`
(src/hotel_booking.py lines 288-293): the intents that have a
requirements entry map to their list of required field names, in source
order; the other intents have no entry. -/
def required_info : Intent → Option (List String)
  | .flight_booking => some ["departure_city", "destination_city", "departure_date"]
  | .hotel_booking => some ["destination_city", "check_in_date", "check_out_date"]
  | .itinerary_planning => some ["destination_city", "trip_duration", "interests"]
  | .budget_planning => some ["destination_city", "trip_duration", "budget_range"]
  | _ => Option.none

/-- Embeds `TravelAssistant._get_missing_info` (src/hotel_booking.py
lines 284-298): returns `[]` when the intent has no requirements entry,
else the required fields that are not keys of `collected_info`, kept in
the listed order. `collected_info` is a Python dict modelled as its
association list. -/
def get_missing_info (intent : Intent) (collected_info : List (String × String)) : List String :=
  match required_info intent with
  | Option.none => []
  | some req => req.filter (fun info => !(collected_info.map Prod.fst).contains info)

/-- Model of a Python value as needed by `process_message`: the final
state returned by the workflow graph is either a dict (with string keys)
or some other value. -/
inductive PyVal where
  | str : String → PyVal
  | dict : List (String × PyVal) → PyVal
  | pyNone : PyVal

/-- The fixed fallback returned when the final state is not a dict with
a "response" key (src/hotel_booking.py line 340). -/
def fallbackMessage : String :=
  "I apologize, but I couldn\x27t generate a proper response. Please try again."

/-- The fixed apology returned from the catch-all handler
(src/hotel_booking.py lines 344-348), the three adjacent string
literals concatenated. -/
def apologyMessage : String :=
  "I encountered an error while processing your message. " ++
  "This might be due to a temporary issue. Please try again or " ++
  "rephrase your request."

/-- Embeds `TravelAssistant.process_message` (src/hotel_booking.py lines
300-348). The entire body runs inside `try`; the graph invocation
`self.graph.invoke(initial_state)` is modelled as an oracle argument
that either raises (`Except.error` with the exception text) or returns a
final state value. The result pairs the lines printed by the handler
with the returned value: on an exception it prints
`f"Error details: {str(e)}"` and returns the apology; on a final state
that is not a dict containing "response" it returns the fallback; else
it returns the value stored under "response". -/
def process_message (invokeResult : Except String PyVal) : List String × PyVal :=
  match invokeResult with
  | .error e => (["Error details: " ++ e], .str apologyMessage)
  | .ok finalState =>
    match finalState with
    | .dict kvs =>
      match kvs.lookup "response" with
      | some v => ([], v)
      | Option.none => ([], .str fallbackMessage)
    | _ => ([], .str fallbackMessage)

end HotelBooking

/-- C3: `TravelAssistant.process_message` never propagates an exception:
if any step raises it prints the error details and returns the fixed
apology string; if the workflow completes but the final state is not a
dict containing a "response" key it returns the fixed fallback string;
otherwise it returns the value under "response". -/
theorem C3_process_message_never_propagates :
    (∀ e, HotelBooking.process_message (.error e) =
      (["Error details: " ++ e], .str HotelBooking.apologyMessage)) ∧
    (∀ v, (∀ kvs, v ≠ HotelBooking.PyVal.dict kvs) →
      HotelBooking.process_message (.ok v) = ([], .str HotelBooking.fallbackMessage)) ∧
    (∀ kvs, kvs.lookup "response" = Option.none →
      HotelBooking.process_message (.ok (.dict kvs)) = ([], .str HotelBooking.fallbackMessage)) ∧
    (∀ kvs v, kvs.lookup "response" = some v →
      HotelBooking.process_message (.ok (.dict kvs)) = ([], v)) := by
  refine ⟨fun e => rfl, ?_, ?_, ?_⟩
  · intro v hv
    match v with
    | .str s => rfl
    | .pyNone => rfl
    | .dict kvs => exact absurd rfl (hv kvs)
  · intro kvs h
    simp [HotelBooking.process_message, h]
  · intro kvs v h
    simp [HotelBooking.process_message, h]

/-- Witness for C3 at concrete inputs: a raising invocation, a non-dict
final state, a dict without "response", and a dict with "response". -/
theorem C3_witness :
    HotelBooking.process_message (.ok .pyNone) = ([], .str HotelBooking.fallbackMessage) ∧
    HotelBooking.process_message (.ok (.dict [("other", .str "x")])) =
      ([], .str HotelBooking.fallbackMessage) ∧
    HotelBooking.process_message (.ok (.dict [("response", .str "Here is your itinerary.")])) =
      ([], .str "Here is your itinerary.") :=
  ⟨C3_process_message_never_propagates.2.1 .pyNone (fun kvs h => by cases h),
   C3_process_message_never_propagates.2.2.1 [("other", .str "x")] rfl,
   C3_process_message_never_propagates.2.2.2 [("response", .str "Here is your itinerary.")]
     (.str "Here is your itinerary.") rfl⟩

/-- C9: `_get_missing_info` returns exactly the required fields of the
intent that are absent as keys of `collected_info`, in the listed order
(a sublist of the requirements list), and the empty list for every
intent without a requirements entry. -/
theorem C9_get_missing_info_exact :
    (∀ c, HotelBooking.get_missing_info .general_inquiry c = [] ∧
      HotelBooking.get_missing_info .destination_info c = [] ∧
      HotelBooking.get_missing_info .unknown c = []) ∧
    (∀ intent c x, x ∈ HotelBooking.get_missing_info intent c ↔
      (x ∈ (HotelBooking.required_info intent).getD [] ∧ x ∉ c.map Prod.fst)) ∧
    (∀ intent c, List.Sublist (HotelBooking.get_missing_info intent c)
      ((HotelBooking.required_info intent).getD [])) := by
  refine ⟨fun c => ⟨rfl, rfl, rfl⟩, ?_, ?_⟩
  · intro intent c x
    cases intent <;>
      simp [HotelBooking.get_missing_info, HotelBooking.required_info, List.mem_filter]
  · intro intent c
    cases intent <;>
      simp [HotelBooking.get_missing_info, HotelBooking.required_info]

namespace ContextDemo

/-- Substring test on character lists: true when the pattern occurs as a
contiguous run. Models the Python expression `pat in s`. -/
def containsSub (pat : List Char) : List Char → Bool
  | [] => pat.isEmpty
  | c :: rest => pat.isPrefixOf (c :: rest) || containsSub pat rest

/-- Model of Python `pat in s` on strings. -/
def strContains (s pat : String) : Bool := containsSub pat.data s.data

/-- Embeds the `AgentState` TypedDict (src/context.py lines 12-20).
The float satisfaction score is modelled as a rational: the only values
it takes are exact multiples of 0.5, on which Python float arithmetic is
exact. -/
structure AgentState where
  messages : List String
  turns : Nat
  satisfaction_score : ℚ
  should_end : Bool

/-- Embeds `process_message` (src/context.py lines 33-59). The
`llm.invoke` call is an oracle argument `response` supplying the text of
the model reply. The customer message and the agent reply are appended
to the history, the turn counter is incremented, the satisfaction score
becomes `max(0, 10 - turns * 0.5)` with the updated counter, and
`should_end` becomes `"goodbye" in input_message.lower() or turns >= 10`. -/
def process_message (state : AgentState) (input_message : String) (response : String) :
    AgentState :=
  let messages := state.messages ++ ["Customer: " ++ input_message, "Agent: " ++ response]
  let turns := state.turns + 1
  let score := max 0 (10 - (turns : ℚ) * (1/2))
  let stop := strContains input_message.toLower "goodbye" || decide (turns ≥ 10)
  { messages := messages, turns := turns, satisfaction_score := score, should_end := stop }

/-- Embeds the loop of `run_conversation` (src/context.py lines 88-99):
each scripted customer message is processed (paired here with the oracle
model reply), and the loop breaks as soon as `should_end` is set. -/
def run_conversation (msgs : List (String × String)) (state : AgentState) : AgentState :=
  match msgs with
  | [] => state
  | (input, response) :: rest =>
    let s := process_message state input response
    if s.should_end then s else run_conversation rest s

/-- Embeds `initial_state` (src/context.py lines 79-84). -/
def initial_state : AgentState :=
  { messages := [], turns := 0, satisfaction_score := 10, should_end := false }

/-- Helper for C10: from any state with fewer than ten turns, the
conversation loop never drives the turn counter past ten, because
`process_message` sets `should_end` as soon as the counter reaches ten
and the loop breaks on `should_end`. -/
theorem run_conversation_turns_le (msgs : List (String × String)) :
    ∀ s : AgentState, s.turns < 10 → (run_conversation msgs s).turns ≤ 10 := by
  induction msgs with
  | nil => intro s hs; exact Nat.le_of_lt hs
  | cons head rest ih =>
    intro s hs
    obtain ⟨input, response⟩ := head
    simp only [run_conversation]
    cases hb : (process_message s input response).should_end with
    | true =>
      simp only [hb, if_true]
      exact hs
    | false =>
      simp only [hb, Bool.false_eq_true, if_false]
      apply ih
      have hb2 : (strContains input.toLower "goodbye" || decide (s.turns + 1 ≥ 10)) = false := hb
      simp only [Bool.or_eq_false_iff, decide_eq_false_iff_not] at hb2
      have h10 : ¬ 10 ≤ s.turns + 1 := hb2.2
      show s.turns + 1 < 10
      omega
  
end ContextDemo

/-- C7: after every call to `process_message` the satisfaction score
equals `max(0, 10 - 0.5 * turns)` for the updated turn counter; hence it
always lies in the interval [0, 10] and never increases from one
processed turn to the next. -/
theorem C7_satisfaction_score_invariant :
    ∀ (s : ContextDemo.AgentState) (input response : String),
      (ContextDemo.process_message s input response).satisfaction_score =
        max 0 (10 - ((ContextDemo.process_message s input response).turns : ℚ) * (1/2)) ∧
      0 ≤ (ContextDemo.process_message s input response).satisfaction_score ∧
      (ContextDemo.process_message s input response).satisfaction_score ≤ 10 ∧
      (∀ input2 response2,
        (ContextDemo.process_message
          (ContextDemo.process_message s input response) input2 response2).satisfaction_score ≤
        (ContextDemo.process_message s input response).satisfaction_score) := by
  intro s input response
  refine ⟨rfl, le_max_left 0 _, ?_, ?_⟩
  · show max 0 (10 - ((s.turns + 1 : ℕ) : ℚ) * (1/2)) ≤ 10
    apply max_le (by norm_num)
    have h : (0 : ℚ) ≤ ((s.turns + 1 : ℕ) : ℚ) * (1/2) := by positivity
    linarith
  · intro input2 response2
    show max 0 (10 - ((s.turns + 1 + 1 : ℕ) : ℚ) * (1/2)) ≤
      max 0 (10 - ((s.turns + 1 : ℕ) : ℚ) * (1/2))
    apply max_le_max le_rfl
    apply sub_le_sub_left
    apply mul_le_mul_of_nonneg_right _ (by norm_num)
    exact_mod_cast Nat.le_succ (s.turns + 1)

/-- C10: after every call to the customer-service `process_message`,
`should_end` holds exactly when the lowercased input contains "goodbye"
or the updated turn counter is at least ten; consequently a conversation
started from the initial state never runs past ten turns. -/
theorem C10_should_end_condition :
    (∀ (s : ContextDemo.AgentState) (input response : String),
      ((ContextDemo.process_message s input response).should_end = true ↔
        (ContextDemo.strContains input.toLower "goodbye" = true ∨ s.turns + 1 ≥ 10))) ∧
    (∀ msgs, (ContextDemo.run_conversation msgs ContextDemo.initial_state).turns ≤ 10) := by
  constructor
  · intro s input response
    show (ContextDemo.strContains input.toLower "goodbye" || decide (s.turns + 1 ≥ 10)) = true ↔ _
    simp
  · intro msgs
    exact ContextDemo.run_conversation_turns_le msgs ContextDemo.initial_state (by decide)

namespace ReactTwo

/-- The regex class `\w` of `action_re` (src/react_2.py line 61): on a
str pattern, Python re matches the Unicode word characters, a class
that contains every ASCII letter, digit and the underscore and excludes
the colon, the space and the newline. Rather than transcribing the
Unicode tables, the embedding below takes this class as a parameter
`w : Char → Bool`, and the C8 theorem quantifies over every `w`, so its
instance at the exact Unicode class describes the program; no reply is
outside its scope. -/
def asciiWordChar (c : Char) : Bool := c.isAlphanum || c = '_'

/-- Longest leading run of `w`-characters of a character list, paired
with the remainder. With `w` the Unicode word class this models the
greedy `\w+` of the pattern: backtracking cannot produce another match,
because a shorter run would still end on a word character, and a word
character is never the required colon. -/
def takeWord (w : Char → Bool) : List Char → List Char × List Char
  | [] => ([], [])
  | c :: cs =>
    if w c then
      let p := takeWord w cs
      (c :: p.1, p.2)
    else ([], c :: cs)

/-- Embeds `action_re.match` for the pattern `^Action: (\w+): (.*)$`
(src/react_2.py line 61) on a single line, parametrized by the `\w`
class `w`: the literal "Action: ", a nonempty `w`-run, the literal
": ", and the rest of the line as the action input. Returns the two
capture groups on a match. -/
def matchActionL (w : Char → Bool) (line : List Char) : Option (String × String) :=
  if "Action: ".data.isPrefixOf line then
    let p := takeWord w (line.drop 8)
    if p.1.isEmpty then Option.none
    else
      match p.2 with
      | ':' :: ' ' :: input => some (String.mk p.1, String.mk input)
      | _ => Option.none
  else Option.none

/-- Splitting a character list at every newline, keeping empty pieces:
models Python `result.split('\n')`. -/
def splitLinesAux (acc : List Char) : List Char → List (List Char)
  | [] => [acc.reverse]
  | c :: cs =>
    if c = '\n' then acc.reverse :: splitLinesAux [] cs
    else splitLinesAux (c :: acc) cs

/-- Embeds the action scan in `query` (src/react_2.py lines 65-71),
parametrized by the `\w` class `w`: the reply is split on newlines,
each line is matched against the action regex, and the first match is
used. -/
def findAction (w : Char → Bool) (reply : String) : Option (String × String) :=
  ((splitLinesAux [] reply.data).filterMap (matchActionL w)).head?

/-- Outcome of a run of `query`: a normal return (the early `return` on
a reply without an action line, or falling off the end of the for loop
— both return None in Python) or the uncaught `Exception` raised on an
unknown action. Both record how many model calls were made. -/
inductive QueryOutcome where
  | returned (callCount : Nat)
  | raised (callCount : Nat) (msg : String)
  deriving DecidableEq, Repr

/-- Number of model calls made in an outcome. -/
def calls : QueryOutcome → Nat
  | .returned n => n
  | .raised n _ => n

/-- Embeds the for loop of `query` (src/react_2.py lines 60-80). The
model is an oracle `replies : Nat → String` giving the reply to the
i-th call; quantifying over all oracles subsumes any dependence of the
reply on the question and the observations. Iteration `i < maxTurns`
makes one call; a reply with no action line returns; the known action
"get_rating" (the only key of `known_actions`) continues the loop with
the observation; any other action raises
`f"Unknown action: {action}: {action_input}"`. The `\w` class `w` is
threaded through to the matcher. -/
def queryAux (w : Char → Bool) (replies : Nat → String) (maxTurns : Nat) (i : Nat) :
    QueryOutcome :=
  if _h : i < maxTurns then
    match findAction w (replies i) with
    | Option.none => .returned (i + 1)
    | some (action, input) =>
      if action = "get_rating" then queryAux w replies maxTurns (i + 1)
      else .raised (i + 1) ("Unknown action: " ++ action ++ ": " ++ input)
  else .returned i
termination_by maxTurns - i
decreasing_by omega

/-- The default of the `max_turns` parameter of `query`
(src/react_2.py line 60). -/
def defaultMaxTurns : Nat := 5

/-- Embeds `query` (src/react_2.py lines 60-80), starting the loop at
iteration 0. -/
def query (w : Char → Bool) (replies : Nat → String) (maxTurns : Nat) : QueryOutcome :=
  queryAux w replies maxTurns 0

/-- Helper for C8: the loop starting at iteration i with i ≤ maxTurns
makes at most maxTurns calls in total, for every `\w` class. -/
theorem queryAux_calls_le (w : Char → Bool) (replies : Nat → String) :
    ∀ fuel i maxTurns, maxTurns - i ≤ fuel → i ≤ maxTurns →
      calls (queryAux w replies maxTurns i) ≤ maxTurns := by
  intro fuel
  induction fuel with
  | zero =>
    intro i maxTurns hfuel hi
    rw [queryAux]
    have : ¬ i < maxTurns := by omega
    simp [this, calls]
    omega
  | succ n ih =>
    intro i maxTurns hfuel hi
    rw [queryAux]
    by_cases h : i < maxTurns
    · simp only [h, dif_pos]
      match findAction w (replies i) with
      | Option.none => simpa [calls] using h
      | some (action, input) =>
        by_cases ha : action = "get_rating"
        · simp only [ha, if_true]
          exact ih (i + 1) maxTurns (by omega) (by omega)
        · simp only [ha, if_false]
          simpa [calls] using h
    · simp [h, calls]
      omega

/-- Helper for C8: if the replies to calls i, i+1, ..., i+d-1 each
contain a get_rating action line and the reply to call i+d contains no
action line, the loop starting at i returns right after call i+d. -/
theorem queryAux_returns_at_first_plain_reply (w : Char → Bool) (replies : Nat → String)
    (maxTurns : Nat) :
    ∀ d i,
      (∀ j, i ≤ j → j < i + d → ∃ inp, findAction w (replies j) = some ("get_rating", inp)) →
      findAction w (replies (i + d)) = Option.none → i + d < maxTurns →
      queryAux w replies maxTurns i = .returned (i + d + 1) := by
  intro d
  induction d with
  | zero =>
    intro i _ hnone hlt
    rw [queryAux]
    simp only [Nat.add_zero] at hnone hlt
    simp [hlt, hnone]
  | succ n ih =>
    intro i hacts hnone hlt
    have hi : i < maxTurns := by omega
    obtain ⟨inp, hinp⟩ := hacts i (Nat.le_refl i) (by omega)
    rw [queryAux]
    simp only [hi, dif_pos, hinp, if_pos rfl]
    have heq : i + 1 + n = i + (n + 1) := by omega
    apply Eq.trans (ih (i + 1) ?_ ?_ ?_)
    · rw [heq]
    · intro j hj1 hj2
      exact hacts j (by omega) (by omega)
    · rw [heq]; exact hnone
    · rw [heq]; exact hlt

end ReactTwo

/-- C8: the hand-rolled ReAct loop always terminates: for every
predicate standing for the regex class `\w` (in particular the Unicode
word-character class Python uses) and every oracle reply sequence,
`query` makes at most `max_turns` (default 5) model calls, and it
returns right after the first call whose reply contains no line
matching `Action: <word>: <text>` (earlier replies all carrying the
known get_rating action). -/
theorem C8_query_terminates_within_max_turns :
    ReactTwo.defaultMaxTurns = 5 ∧
    (∀ (w : Char → Bool) replies maxTurns,
      ReactTwo.calls (ReactTwo.query w replies maxTurns) ≤ maxTurns) ∧
    (∀ (w : Char → Bool) replies maxTurns i, i < maxTurns →
      (∀ j, j < i → ∃ inp, ReactTwo.findAction w (replies j) = some ("get_rating", inp)) →
      ReactTwo.findAction w (replies i) = Option.none →
      ReactTwo.query w replies maxTurns = .returned (i + 1)) := by
  refine ⟨rfl, ?_, ?_⟩
  · intro w replies maxTurns
    exact ReactTwo.queryAux_calls_le w replies maxTurns 0 maxTurns (by omega) (by omega)
  · intro w replies maxTurns i hi hacts hnone
    have h := ReactTwo.queryAux_returns_at_first_plain_reply w replies maxTurns i 0
      (fun j hj1 hj2 => hacts j (by omega)) (by simpa using hnone) (by simpa using hi)
    simpa using h

/-- Witness for C8: a concrete two-reply oracle whose first reply
carries a get_rating action and whose second has no action line; the
loop with the default limit of five returns after exactly two calls.
The class is instantiated at its ASCII fragment, which agrees with the
Unicode class on every character of these two replies. -/
theorem C8_witness :
    ReactTwo.query ReactTwo.asciiWordChar
      (fun n => if n = 0 then "Thought: check ratings\nAction: get_rating: Pizza Palace\nPAUSE"
                else "Answer: Pizza Palace has the better rating.") 5 =
      .returned 2 := by
  apply C8_query_terminates_within_max_turns.2.2 ReactTwo.asciiWordChar _ 5 1 (by decide)
  · intro j hj
    have hj0 : j = 0 := by omega
    subst hj0
    exact ⟨"Pizza Palace", by decide⟩
  · decide

namespace ErrorHandling

/-- The eleven scripts of the repository. -/
inductive ScriptName where
  | basicChatbot
  | chatbotWithInternet
  | chatbotWithMemory
  | contextDemo
  | hotelBooking
  | langgraphTwo
  | normalSearch
  | normalVsAgentic
  | reactTwo
  | streamingPersistenc
  | tavilySearch
  deriving DecidableEq, Repr

/-- What a handler does after catching. -/
inductive HandlerOutcome where
  | returnsFallback
  | reraises
  | breaksLoop
  | substitutesDefault
  | returnsErrorCode
  deriving DecidableEq, Repr

/-- Syntactic record of one try/except block of the repository:
which script it is in, whether it catches every exception (a bare
`except:` or `except Exception`), whether its body prints a message,
and what it does next. -/
structure ExceptBlock where
  script : ScriptName
  catchesAll : Bool
  printsMessage : Bool
  outcome : HandlerOutcome
  deriving DecidableEq, Repr

/-- Inventory of every try/except block in the repository, in file
order:
1. src/basic_chatbot.py lines 33-42: bare `except:` around the input
   loop body, no print, `break`.
2. src/chatbot-with-internet.py lines 51-60: same shape.
3. src/chatbot-with-memory.py lines 57-66: same shape.
4. src/langgraph_2.py lines 113-117 (`Agent.take_action`):
   `except Exception as e:` storing `f"Error executing {tool_name}: ..."`
   into the tool result, no print.
5. src/hotel_booking.py lines 185-188 (`_classify_intent`):
   `except ValueError:` substituting `Intent.UNKNOWN`, no print.
6. src/hotel_booking.py lines 216-219 (`_extract_information`):
   `except json.JSONDecodeError:` substituting `{}`, no print.
7. src/hotel_booking.py lines 330-348 (`process_message`):
   `except Exception as e:` printing error details and returning the
   apology string.
8. src/streaming_persistenc.py lines 52-64
   (`synchronous_stream_and_persist`): `except Exception as e:` printing
   and re-raising.
9. src/streaming_persistenc.py lines 67-80
   (`asynchronous_stream_and_persist`): `except Exception as e:`
   printing and re-raising.
10. src/streaming_persistenc.py lines 84-97 (`main`):
    `except Exception as e:` printing and returning exit code 1. -/
def repoHandlers : List ExceptBlock :=
  [⟨.basicChatbot, true, false, .breaksLoop⟩,
   ⟨.chatbotWithInternet, true, false, .breaksLoop⟩,
   ⟨.chatbotWithMemory, true, false, .breaksLoop⟩,
   ⟨.langgraphTwo, true, false, .returnsFallback⟩,
   ⟨.hotelBooking, false, false, .substitutesDefault⟩,
   ⟨.hotelBooking, false, false, .substitutesDefault⟩,
   ⟨.hotelBooking, true, true, .returnsFallback⟩,
   ⟨.streamingPersistenc, true, true, .reraises⟩,
   ⟨.streamingPersistenc, true, true, .reraises⟩,
   ⟨.streamingPersistenc, true, true, .returnsErrorCode⟩]

/-- All eleven scripts, in alphabetical file order. -/
def allScripts : List ScriptName :=
  [.basicChatbot, .chatbotWithInternet, .chatbotWithMemory, .contextDemo,
   .hotelBooking, .langgraphTwo, .normalSearch, .normalVsAgentic,
   .reactTwo, .streamingPersistenc, .tavilySearch]

/-- Whether the script's top-level demo invocation can let an exception
escape the process with no surrounding catch-all. The three chat-loop
scripts wrap their loop body in a bare except; hotel_booking's per-
message work is entirely inside the catch-all of `process_message`; the
streaming demo wraps both loops and `main`. The other six run their
demo calls at module top level with no try at all — in particular
react_2's `query` itself raises on an unknown action and its top-level
call is unprotected, and context.py's `run_conversation` has no
handler. -/
def scriptMayEscape : ScriptName → Bool
  | .contextDemo => true
  | .langgraphTwo => true
  | .normalSearch => true
  | .normalVsAgentic => true
  | .reactTwo => true
  | .tavilySearch => true
  | _ => false

/-- The property asserted by the spec sentence, stated over the
inventory: every handler is a broad catch-all that prints and then
returns a fallback string or re-raises, and no script can let an
exception escape. -/
def handlerFollowsClaimedPattern (h : ExceptBlock) : Bool :=
  h.catchesAll && h.printsMessage &&
    (h.outcome == .returnsFallback || h.outcome == .reraises)

/-- The spec claim C2, written from its words, to be compared with the
inventory embedded from the source. -/
def claimedErrorHandlingDiscipline : Prop :=
  (∀ h ∈ repoHandlers, handlerFollowsClaimedPattern h = true) ∧
  (∀ s ∈ allScripts, scriptMayEscape s = false)

end ErrorHandling

/-- C2 counterexample: the claimed uniform discipline is false on the
code. The very first handler — basic_chatbot.py's bare `except:` that
silently breaks the loop without printing — is in the inventory and
violates the claimed pattern, and react_2 lets its unknown-action
exception escape with no catch-all anywhere. -/
theorem C2_counterexample :
    ¬ ErrorHandling.claimedErrorHandlingDiscipline ∧
    (⟨.basicChatbot, true, false, .breaksLoop⟩ : ErrorHandling.ExceptBlock) ∈
      ErrorHandling.repoHandlers ∧
    ErrorHandling.handlerFollowsClaimedPattern ⟨.basicChatbot, true, false, .breaksLoop⟩ = false ∧
    ErrorHandling.scriptMayEscape .reactTwo = true := by
  refine ⟨fun hc => ?_, by decide, by decide, by decide⟩
  have h1 := hc.1 ⟨.basicChatbot, true, false, .breaksLoop⟩ (by decide)
  exact absurd h1 (by decide)

/-- C2 amended: every handler that prints follows the catch-all pattern
(returning a fallback string, re-raising, or returning exit code 1),
but only four of the ten handlers print at all; the six silent ones are
the three chat-loop bare excepts that just break, hotel_booking's two
narrow handlers that substitute defaults, and langgraph_2's tool
dispatcher that embeds the error in the returned tool message; and six
of the eleven scripts run their demo at top level with no catch-all, so
exceptions can escape them. -/
theorem C2_amended_error_handling_inventory :
    (∀ h ∈ ErrorHandling.repoHandlers, h.printsMessage = true →
      h.catchesAll = true ∧
      (h.outcome = .returnsFallback ∨ h.outcome = .reraises ∨ h.outcome = .returnsErrorCode)) ∧
    (ErrorHandling.repoHandlers.filter (fun h => !h.printsMessage)).map
        (fun h => h.script) =
      [.basicChatbot, .chatbotWithInternet, .chatbotWithMemory,
       .langgraphTwo, .hotelBooking, .hotelBooking] ∧
    ErrorHandling.allScripts.filter (fun s => ErrorHandling.scriptMayEscape s) =
      [.contextDemo, .langgraphTwo, .normalSearch, .normalVsAgentic,
       .reactTwo, .tavilySearch] := by
  refine ⟨?_, by decide, by decide⟩
  intro h hmem hp
  fin_cases hmem <;> simp_all
